import Mathlib

/-!
Verification development for the WhatsApp multi-instance gateway.

The definitions below are shallow embeddings of the JavaScript source:

* `handleClose`, `handleOpen` embed the `connection.update` handler of
  `WhatsAppInstance.setupEventHandlers`
  (src/services/whatsappInstanceManager.service.js, lines 152-253);
* `deleteInstance` embeds `WhatsAppInstanceManager.deleteInstance`
  (lines 901-934) together with `WhatsAppInstance.disconnect` (816-829);
* `restartMark` embeds the state-mutating part of
  `WhatsAppInstanceManager.restartInstance` (992-1011) and
  `WhatsAppInstance.close` (800-814).

Machine state that lives outside the process (the persisted row, the
credential directory on disk, membership in the manager map) is carried in
`InstState` as explicit fields so that the side effects of each handler can
be stated.
-/

namespace WhatsAppGateway

/- Baileys `DisconnectReason` protocol codes used by the close handler. -/
namespace DisconnectReason

/-- The upstream logout code (`DisconnectReason.loggedOut`). -/
def loggedOut : Nat := 401

/-- The transient "stream reset during QR scan" code (`restartRequired`). -/
def restartRequired : Nat := 515

end DisconnectReason

/-- `this.maxReconnectAttempts`, fixed to 5 in the `WhatsAppInstance`
constructor (line 32). -/
def maxReconnectAttempts : Nat := 5

/-- In-memory and external state of one `WhatsAppInstance`.

`connectionStatus`, `isConnected`, `qrCode`, `reconnectAttempts` and
`isManualRestart` are the instance fields of the same names.  `dbStatus` is
the `status` column of the persisted instance row (written through
`instanceService.updateStatus`); `dbRecordExists` records whether that row
still exists; `authDirExists` records whether the credential directory
`auth/<phone>` exists on disk; `inManagerMap` records membership in the
manager's `instances` map. -/
structure InstState where
  connectionStatus : String
  isConnected : Bool
  qrCode : Option String
  reconnectAttempts : Nat
  isManualRestart : Bool
  dbStatus : String
  dbRecordExists : Bool
  authDirExists : Bool
  inManagerMap : Bool
deriving Repr, DecidableEq

/-- The state of a freshly constructed `WhatsAppInstance`
(constructor, lines 22-34): disconnected, no QR, zero reconnect attempts,
manual-restart flag unset; the persisted row and the auth directory exist
and the instance is in the manager map. -/
def freshInstState : InstState where
  connectionStatus := "disconnected"
  isConnected := false
  qrCode := none
  reconnectAttempts := 0
  isManualRestart := false
  dbStatus := "inactive"
  dbRecordExists := true
  authDirExists := true
  inManagerMap := true

/-- `WhatsAppInstanceManager.deleteInstance(phone, keepDatabaseRecord)`
(lines 901-934): logs the instance out (`disconnect`, which persists status
`inactive`), removes it from the manager map, deletes the persisted row
unless `keepDatabaseRecord`, and removes the credential directory. -/
def deleteInstance (s : InstState) (keepDatabaseRecord : Bool) : InstState :=
  { s with
    isConnected := false
    connectionStatus := "disconnected"
    dbStatus := "inactive"
    inManagerMap := false
    dbRecordExists := if keepDatabaseRecord then s.dbRecordExists else false
    authDirExists := false }

/-- Result of one `connection === 'close'` event: the successor state,
whether a reconnect was scheduled (`setTimeout(() => this.initialize(), 5000)`),
and the sub-status sent in the `connection.update` webhook. -/
structure CloseOutcome where
  state : InstState
  scheduledReconnect : Bool
  webhookStatus : String
deriving Repr, DecidableEq

/-- The `connection === 'close'` branch of the `connection.update` handler
(lines 152-224).  `statusCode` is `lastDisconnect?.error?.output?.statusCode`
(`none` when the chain is absent).

* `shouldReconnect` holds unless the code is the logout code;
* code 515 is treated as a stream error, overriding the manual-restart flag;
* the manual-restart flag is reset on every close;
* with `shouldReconnect`, counter below the maximum and no (effective)
  manual restart, the counter is incremented, status becomes `reconnecting`
  and a reconnect is scheduled;
* on an effective manual restart the instance merely becomes inactive;
* otherwise the manager soft-cleans it (`deleteInstance` with
  `keepDatabaseRecord = true`) and the in-memory status becomes
  `logged_out`. -/
def handleClose (s : InstState) (statusCode : Option Nat) : CloseOutcome :=
  let shouldReconnect : Bool := statusCode != some DisconnectReason.loggedOut
  let isStreamError : Bool := statusCode == some DisconnectReason.restartRequired
  let wasManualRestart : Bool := s.isManualRestart && !isStreamError
  let s1 : InstState := { s with isManualRestart := false }
  if shouldReconnect && decide (s.reconnectAttempts < maxReconnectAttempts)
      && !wasManualRestart then
    { state := { s1 with
        reconnectAttempts := s.reconnectAttempts + 1
        connectionStatus := "reconnecting"
        isConnected := false
        dbStatus := "reconnecting" }
      scheduledReconnect := true
      webhookStatus := "reconnecting" }
  else if wasManualRestart then
    { state := { s1 with
        connectionStatus := "disconnected"
        isConnected := false
        dbStatus := "inactive" }
      scheduledReconnect := false
      webhookStatus := "manual_restart" }
  else
    { state := { deleteInstance s1 true with
        connectionStatus := "logged_out"
        isConnected := false }
      scheduledReconnect := false
      webhookStatus := "logged_out" }

/-- The `connection === 'open'` branch (lines 225-240): status `connected`,
QR cleared, reconnect counter reset to 0, persisted status `active`. -/
def handleOpen (s : InstState) : InstState :=
  { s with
    connectionStatus := "connected"
    isConnected := true
    qrCode := none
    reconnectAttempts := 0
    dbStatus := "active" }

/-- A transport connection event relevant to the reconnection policy. -/
inductive ConnEvent where
  | opened
  | closed (statusCode : Option Nat)
deriving Repr, DecidableEq

/-- One step of the connection state machine. -/
def stepConn (s : InstState) : ConnEvent → InstState
  | .opened => handleOpen s
  | .closed c => (handleClose s c).state

/-- Run the connection state machine over a list of transport events. -/
def runConn (s : InstState) : List ConnEvent → InstState
  | [] => s
  | e :: rest => runConn (stepConn s e) rest

/-- Five open/close cycles: the transport opens successfully and then emits
a non-logout close (code 428, `connectionClosed`), five times over. -/
def fiveOpenCloseCycles : List ConnEvent :=
  [.opened, .closed (some 428), .opened, .closed (some 428),
   .opened, .closed (some 428), .opened, .closed (some 428),
   .opened, .closed (some 428)]

/-- The state after one successful open followed by five non-logout closes
with no further open in between (five consecutive failed reconnection
attempts). -/
def afterFiveFailedReconnects : InstState :=
  runConn freshInstState (.opened :: List.replicate 5 (.closed (some 428)))

/-- The state-mutating part of
`WhatsAppInstanceManager.restartInstance(phone)` (lines 992-1011) before the
transport re-initialises: the manual-restart flag is set and the socket is
closed without logging out (`WhatsAppInstance.close`, lines 800-814), which
marks the instance disconnected but preserves credentials and the persisted
status. -/
def restartMark (s : InstState) : InstState :=
  { s with
    isManualRestart := true
    isConnected := false
    connectionStatus := "disconnected" }

/-- Concrete state used to instantiate the bounded-reconnection theorem:
an instance whose reconnect counter has reached the maximum. -/
def atMaxAttemptsState : InstState :=
  { freshInstState with reconnectAttempts := 5, connectionStatus := "reconnecting" }

/-!
Webhook dispatcher (`WhatsAppInstance.triggerWebhooks`, lines 458-550,
with `webhookService.getEnabledWebhooks` and `webhookHistoryService.create`).
-/

/-- A webhook subscription row (the `webhook` table fields the dispatcher
reads: `webhookService.getEnabledWebhooks` filters on `instanceId`, `event`
and `isEnabled`). -/
structure Webhook where
  id : String
  url : String
  instanceId : String
  event : String
  isEnabled : Bool
deriving Repr, DecidableEq

/-- `webhookService.getEnabledWebhooks(instanceId, event)`
(src/services/webhookService.js, lines 142-153): all subscriptions whose
`instanceId` and `event` match and whose `isEnabled` flag is set. -/
def getEnabledWebhooks (webhooks : List Webhook) (instanceId event : String) :
    List Webhook :=
  webhooks.filter (fun w => w.instanceId == instanceId && w.event == event && w.isEnabled)

/-- Outcome of the `axios.post` call for one delivery attempt.  With the
default axios `validateStatus`, the promise resolves exactly for a 2xx
response and rejects otherwise: a non-2xx response rejects with
`error.response` set; a timeout rejects with `error.code = ECONNABORTED`
and message naming the 5000 ms timeout; any other network or transport
error rejects with `error.response` absent.  `elapsedMs` is the measured
wall-clock duration of the attempt. -/
inductive HttpOutcome where
  | response (status : Nat) (elapsedMs : Nat)
  | timeout
  | networkError (msg : String) (elapsedMs : Nat)
deriving Repr, DecidableEq

/-- Wall-clock duration of one delivery attempt; a timed-out attempt takes
the full 5000 ms axios timeout. -/
def attemptElapsed : HttpOutcome → Nat
  | .response _ e => e
  | .timeout => 5000
  | .networkError _ e => e

/-- Whether a status code is in the 2xx range (axios default
`validateStatus`). -/
def is2xx (status : Nat) : Bool :=
  decide (200 ≤ status) && decide (status < 300)

/-- One row of the webhook-history table as written by
`webhookHistoryService.create` (src/unnamed/part_005, lines 19-39) from the
`historyData` object the dispatcher builds. -/
structure WebhookHistoryRow where
  instanceId : String
  webhookId : String
  event : String
  status : String
  httpStatusCode : Option Nat
  responseTime : Nat
  errorMessage : Option String
  retryCount : Nat
  triggeredAt : Nat
  completedAt : Nat
deriving Repr, DecidableEq

/-- Modelled from the spec: the Prisma schema that defines the
webhook-history table (and hence the default value of its `triggered_at`
column, which `webhookHistoryService.create` does not pass explicitly) is
not under src/.  Per the spec's data model, a history row is created per
delivery attempt and `triggered_at` records when the attempt was
triggered, so it is taken to be the attempt's start time. -/
def triggeredAtOf (startTime : Nat) : Nat := startTime

/-- One per-subscription delivery attempt (the body of the `for` loop in
`triggerWebhooks`, lines 462-546): a resolved 2xx response yields a
`success` row carrying the HTTP status and response time; a rejected call
with `error.code = ECONNABORTED` yields a `timeout` row with null HTTP
status and the axios timeout message; a rejection carrying
`error.response` yields a `failed` row with that response's status; any
other rejection yields a `failed` row with null HTTP status and the cause
in `errorMessage`.  `completedAt` is the `new Date()` taken when the
attempt settles. -/
def deliverOne (instanceId webhookId event : String) (startTime : Nat)
    (outcome : HttpOutcome) : WebhookHistoryRow :=
  match outcome with
  | .response s e =>
    if is2xx s then
      { instanceId := instanceId, webhookId := webhookId, event := event
        status := "success", httpStatusCode := some s, responseTime := e
        errorMessage := none, retryCount := 0
        triggeredAt := triggeredAtOf startTime, completedAt := startTime + e }
    else
      { instanceId := instanceId, webhookId := webhookId, event := event
        status := "failed", httpStatusCode := some s, responseTime := e
        errorMessage := some ("Request failed with status code " ++ toString s)
        retryCount := 0
        triggeredAt := triggeredAtOf startTime, completedAt := startTime + e }
  | .timeout =>
      { instanceId := instanceId, webhookId := webhookId, event := event
        status := "timeout", httpStatusCode := none, responseTime := 5000
        errorMessage := some "timeout of 5000ms exceeded", retryCount := 0
        triggeredAt := triggeredAtOf startTime, completedAt := startTime + 5000 }
  | .networkError m e =>
      { instanceId := instanceId, webhookId := webhookId, event := event
        status := "failed", httpStatusCode := none, responseTime := e
        errorMessage := some m, retryCount := 0
        triggeredAt := triggeredAtOf startTime, completedAt := startTime + e }

/-- The dispatcher loop of `triggerWebhooks`: subscriptions are processed
sequentially (each iteration awaits its delivery and its history write), so
each attempt starts when the previous one completed; one history row is
written per subscription whatever the delivery outcome. -/
def triggerWebhooks (instanceId event : String) (t : Nat) :
    List (Webhook × HttpOutcome) → List WebhookHistoryRow
  | [] => []
  | (w, o) :: rest =>
      deliverOne instanceId w.id event t o ::
        triggerWebhooks instanceId event (t + attemptElapsed o) rest

/-- Full dispatch for an `(instance, event)` pair: resolve the enabled
matching subscriptions, then attempt each, recording one history row per
attempt.  `outcome` gives the HTTP outcome the environment produces for
each subscription. -/
def dispatchEvent (webhooks : List Webhook) (instanceId event : String)
    (t : Nat) (outcome : Webhook → HttpOutcome) : List WebhookHistoryRow :=
  triggerWebhooks instanceId event t
    ((getEnabledWebhooks webhooks instanceId event).map (fun w => (w, outcome w)))

/-!
Plugin chain (`PluginManager`, src/core/plugin-manager.core.js) and the
inbound message pipeline (`WhatsAppInstance.handleMessagesUpsert`,
lines 314-339, with `storeMessage`, 427-456).
-/

/-- A loaded plugin as registered by `PluginManager.loadPlugins`: its name
(the file name without `.plugin.js`) and the `enabled` flag of its own
declared default config (lines 37-39). -/
structure Plugin where
  name : String
  defaultEnabled : Bool
deriving Repr, DecidableEq

/-- Lookup in the per-instance override object
`this.instancePluginConfig[pluginName]`: `none` models the JS `undefined`
for an absent key. -/
def lookupOverride (cfg : List (String × Bool)) (name : String) : Option Bool :=
  (cfg.find? (fun p => p.1 == name)).map Prod.snd

/-- The set of plugin handlers `PluginManager.executePlugins` invokes
(lines 67-96): a plugin runs exactly when
`instanceEnabled !== undefined ? instanceEnabled : false` is true, i.e. the
override value when present and `false` when the name is absent.  The
plugin's own `defaultEnabled` flag is not consulted. -/
def executePlugins (plugins : List Plugin) (cfg : List (String × Bool)) :
    List String :=
  (plugins.filter (fun p => (lookupOverride cfg p.name).getD false)).map Plugin.name

/-- Outcome the environment produces for one pipeline stage (a resolved or
rejected promise). -/
inductive StageResult where
  | ok
  | err (msg : String)
deriving Repr, DecidableEq

/-- Observable result of running the inbound pipeline on one message. -/
structure RunOut where
  messageStored : Bool
  invokedPlugins : List String
  webhooksDispatched : Bool
  logs : List String
deriving Repr, DecidableEq

/-- `WhatsAppInstance.storeMessage` (lines 427-456): the persistence call
sits in the method's own try/catch, so a storage failure is logged and the
method returns normally. -/
def storeMessageRun : StageResult → Bool × List String
  | .ok => (true, [])
  | .err m => (false, ["Error storing message: " ++ m])

/-- The per-plugin error containment of `executePlugins` (lines 78-90):
every enabled plugin's promise carries its own `.catch` that only logs, so
every handler is invoked and a rejection contributes a log line. -/
def pluginChainLogs (invoked : List String) (handlerResult : String → StageResult) :
    List String :=
  invoked.filterMap (fun n =>
    match handlerResult n with
    | .ok => none
    | .err m => some ("Plugin " ++ n ++ " error: " ++ m))

/-- `WhatsAppInstance.triggerWebhooks` wraps its whole body in try/catch
(lines 458-550): the dispatch runs and a failure is only logged. -/
def triggerWebhooksRun : StageResult → Bool × List String
  | .ok => (true, [])
  | .err m => (true, ["Error triggering webhooks: " ++ m])

/-- The body of `handleMessagesUpsert` for one non-self message
(lines 319-338): store the message, run the plugin chain, fan out to
webhooks, in sequence inside a per-message try/catch.  Each stage returns
normally because of the internal catches embedded above, so the
per-message catch never skips a later stage. -/
def handleMessagesUpsertOne (plugins : List Plugin) (cfg : List (String × Bool))
    (storeResult : StageResult) (handlerResult : String → StageResult)
    (webhookResult : StageResult) : RunOut :=
  let stored := storeMessageRun storeResult
  let invoked := executePlugins plugins cfg
  let pluginLogs := pluginChainLogs invoked handlerResult
  let webhooks := triggerWebhooksRun webhookResult
  { messageStored := stored.1
    invokedPlugins := invoked
    webhooksDispatched := webhooks.1
    logs := stored.2 ++ pluginLogs ++ webhooks.2 }

/-!
Safe serialisation (`WhatsAppInstance.safeSerialize`, lines 345-397).
JavaScript values reachable from an upstream envelope are modelled by
`JsVal`; `sanitize` embeds the replacer passed to `JSON.stringify`.
-/

/-- A JavaScript value as seen by `JSON.stringify` in `safeSerialize`.
`uint8array` is a plain `Uint8Array`; `buffer` is a Node `Buffer`, which
is a subclass of `Uint8Array` carrying its own `toJSON` method, so it is
kept as a separate constructor to model that extra behaviour.  `foreign`
covers the remaining non-plain complex objects (those whose
`Object.prototype.toString.call` tag is neither `[object Object]` nor an
array), carrying the result of their `toString()`. -/
inductive JsVal where
  | str (s : String)
  | num (n : Int)
  | bool (b : Bool)
  | null
  | uint8array (bytes : List Nat)
  | buffer (bytes : List Nat)
  | fn (name : String)
  | obj (fields : List (String × JsVal))
  | arr (elems : List JsVal)
  | foreign (tostr : String)
deriving Repr

/-- `Array.from` of a byte array: a JS array of numbers. -/
def sanitizeBytes (bs : List Nat) : List JsVal := bs.map (fun b => JsVal.num b)

mutual

/-- The value transformation `JSON.stringify` performs with the
`safeSerialize` replacer (lines 347-386), applied recursively as it walks
the value: a `Uint8Array` becomes
`{__type: 'Uint8Array', data: Array.from(value)}`; a function becomes
`{__type: 'Function', name}` with `'anonymous'` for an empty name; plain
objects and arrays are kept and recursed into; any other complex object
becomes `{__type: 'ComplexObject', toString: value.toString()}`;
primitives pass through.

A Node `Buffer` never reaches the replacer's `Buffer.isBuffer` branch:
`JSON.stringify` invokes a value's `toJSON` method before calling the
replacer (ECMA-262 SerializeJSONProperty), and `Buffer.prototype.toJSON`
turns the buffer into the plain object `{type: 'Buffer', data: <numbers>}`,
which the replacer's plain-object branch then passes through untagged.
That branch is dead for a second reason as well: `Buffer` extends
`Uint8Array`, so even without `toJSON` the `value instanceof Uint8Array`
check, which comes first, would capture every Buffer.  No input therefore
ever produces `{__type: 'Buffer', data: <base64>}`. -/
def sanitize : JsVal → JsVal
  | .uint8array bs =>
      .obj [("__type", .str "Uint8Array"), ("data", .arr (sanitizeBytes bs))]
  | .fn name =>
      .obj [("__type", .str "Function"),
            ("name", .str (if name = "" then "anonymous" else name))]
  | .buffer bs =>
      .obj [("type", .str "Buffer"), ("data", .arr (sanitizeBytes bs))]
  | .foreign t =>
      .obj [("__type", .str "ComplexObject"), ("toString", .str t)]
  | .obj fs => .obj (sanitizeFields fs)
  | .arr es => .arr (sanitizeElems es)
  | .str s => .str s
  | .num n => .num n
  | .bool b => .bool b
  | .null => .null

/-- Recurse into the fields of a plain object. -/
def sanitizeFields : List (String × JsVal) → List (String × JsVal)
  | [] => []
  | (k, v) :: rest => (k, sanitize v) :: sanitizeFields rest

/-- Recurse into the elements of an array. -/
def sanitizeElems : List JsVal → List JsVal
  | [] => []
  | v :: rest => sanitize v :: sanitizeElems rest

end

/-- JS `typeof` of a modelled value. -/
def typeofVal : JsVal → String
  | .str _ => "string"
  | .num _ => "number"
  | .bool _ => "boolean"
  | .fn _ => "function"
  | _ => "object"

/-- Abstraction of `obj?.toString?.()` as used by the fallback branch. -/
def jsToString : JsVal → String
  | .str s => s
  | .num n => toString n
  | .bool b => toString b
  | .null => "Unable to convert to string"
  | .foreign t => t
  | _ => "[object Object]"

/-- `safeSerialize(obj)` (lines 345-397): the sanitised value when the
`JSON.parse(JSON.stringify(...))` round trip succeeds, and the fallback
object `{__serialization_error: true, error, type, toString}` when it
throws.  `stringifyError` carries the thrown message; circular structures,
the one way the round trip fails, are not representable in the inductive
value model, so the environment supplies the flag. -/
def safeSerialize (obj : JsVal) (stringifyError : Option String) : JsVal :=
  match stringifyError with
  | none => sanitize obj
  | some msg =>
      .obj [("__serialization_error", .bool true),
            ("error", .str msg),
            ("type", .str (typeofVal obj)),
            ("toString", .str (jsToString obj))]

/-- Field lookup inside a modelled JS object. -/
def JsVal.lookupField : JsVal → String → Option JsVal
  | .obj fs, k => (fs.find? (fun p => p.1 == k)).map Prod.snd
  | _, _ => none

/-- Extract a string-valued field of a modelled JS object. -/
def fieldStr (v : JsVal) (k : String) : Option String :=
  match v.lookupField k with
  | some (.str s) => some s
  | _ => none

/-- Whether a modelled JS value is a string. -/
def JsVal.isStringVal : JsVal → Bool
  | .str _ => true
  | _ => false

/-- Whether a modelled JS value is the boolean `true`. -/
def JsVal.isTrueVal : JsVal → Bool
  | .bool b => b
  | _ => false

/-!
Instance creation (`createInstance` controller,
src/controllers/mode.controller.js lines 292-339;
`WhatsAppInstanceManager.createInstance`, lines 880-899; and
`InstanceService.create`, src/unnamed/part_006 lines 12-22).
-/

/-- `phone.replace(/[^\d]/g, '')`: keep only the ASCII digits. -/
def normalizePhone (s : String) : String :=
  String.mk (s.toList.filter Char.isDigit)

/-- A persisted instance row (the fields `InstanceService.create` writes). -/
structure InstanceRow where
  phone : String
  name : String
  aliasName : Option String
  status : String
deriving Repr, DecidableEq

/-- The persisted instance table; `phone` carries a unique constraint. -/
structure InstanceStore where
  rows : List InstanceRow
deriving Repr, DecidableEq

/-- `InstanceService.findByPhone(phone)` (part_006, lines 72-79). -/
def findByPhone (st : InstanceStore) (phone : String) : Option InstanceRow :=
  st.rows.find? (fun r => r.phone == phone)

/-- `InstanceService.create(data)` (part_006, lines 12-22): inserts a row
with default status `inactive`; the store's unique constraint on `phone`
rejects an insert whose phone is already present. -/
def instanceServiceCreate (st : InstanceStore) (phone name : String)
    (aliasName : Option String) : Except String (InstanceStore × InstanceRow) :=
  if (findByPhone st phone).isSome then
    .error "Unique constraint failed on the fields: (phone)"
  else
    let row : InstanceRow := { phone := phone, name := name, aliasName := aliasName,
                               status := "inactive" }
    .ok ({ rows := st.rows ++ [row] }, row)

/-- Process-wide manager state relevant to creation: the persisted store,
the keys of the in-memory `instances` map, and the instances on which
`initialize()` has been called. -/
structure ManagerState where
  store : InstanceStore
  memPhones : List String
  startedPhones : List String
deriving Repr, DecidableEq

/-- `WhatsAppInstanceManager.createInstance(instanceData)` (lines 880-899):
persist through `instanceService.create` (propagating its error), insert
the new instance into the in-memory map under the persisted phone, and
initialize it. -/
def managerCreateInstance (ms : ManagerState) (phone name : String)
    (aliasName : Option String) : Except String (ManagerState × InstanceRow) :=
  match instanceServiceCreate ms.store phone name aliasName with
  | .error m => .error m
  | .ok (st, row) =>
      .ok ({ store := st
             memPhones := ms.memPhones ++ [row.phone]
             startedPhones := ms.startedPhones ++ [row.phone] }, row)

/-- HTTP-level result of the create-instance controller. -/
inductive CreateResponse where
  | missingFields
  | alreadyExists
  | serverError (msg : String)
  | created (row : InstanceRow)
deriving Repr, DecidableEq

/-- The `createInstance` controller (mode.controller.js, lines 292-339):
reject empty phone or name (400); reject with the AlreadyExists error (400)
when `findByPhone` finds the raw request phone; otherwise create through
the manager with the digits-only phone, mapping a thrown error to a 500
response. -/
def createInstanceCtrl (ms : ManagerState) (phone name : String)
    (aliasName : Option String) : ManagerState × CreateResponse :=
  if phone = "" ∨ name = "" then (ms, .missingFields)
  else if (findByPhone ms.store phone).isSome then (ms, .alreadyExists)
  else
    match managerCreateInstance ms (normalizePhone phone) name aliasName with
    | .error m => (ms, .serverError m)
    | .ok (ms2, row) => (ms2, .created row)

/-- A manager state holding exactly one persisted and in-memory instance
with phone `628123456789`. -/
def msWith628 : ManagerState where
  store := { rows := [{ phone := "628123456789", name := "I1", aliasName := none,
                        status := "active" }] }
  memPhones := ["628123456789"]
  startedPhones := []

/-!
Outbound recipient normalisation (`WhatsAppInstance.sendMessage`,
lines 558-568, and the identical block in `sendMediaMessage`,
lines 701-711).  JavaScript strings are modelled as character lists.
-/

/-- `phoneNumber.replace(/[^\d]/g, '')` on a character-list string. -/
def digitsOnly (s : List Char) : List Char := s.filter Char.isDigit

/-- The recipient formatting shared verbatim by `sendMessage` and
`sendMediaMessage`: strip non-digits; when the result does not start with
`62`, replace a leading `0` by `62`, otherwise prepend `62`. -/
def formatPhoneNumber62 (phoneNumber : List Char) : List Char :=
  let formatted := digitsOnly phoneNumber
  if List.isPrefixOf ['6', '2'] formatted then formatted
  else if List.isPrefixOf ['0'] formatted then '6' :: '2' :: formatted.drop 1
  else '6' :: '2' :: formatted

/-- The destination JID handed to `sock.sendMessage`:
`` `${formattedNumber}@s.whatsapp.net` ``. -/
def personalJid (phoneNumber : List Char) : List Char :=
  formatPhoneNumber62 phoneNumber ++ "@s.whatsapp.net".toList

/-- An empty manager state (no persisted rows, nothing in memory). -/
def emptyManagerState : ManagerState where
  store := { rows := [] }
  memPhones := []
  startedPhones := []

/-- Three sample subscriptions for the same instance and event, the third
disabled. -/
def sampleWebhooks : List Webhook :=
  [{ id := "A", url := "http://a.example", instanceId := "inst1",
     event := "message.received", isEnabled := true },
   { id := "B", url := "http://b.example", instanceId := "inst1",
     event := "message.received", isEnabled := true },
   { id := "C", url := "http://c.example", instanceId := "inst1",
     event := "message.received", isEnabled := false }]

/-- Sample delivery outcomes: subscription A answers 200 in 40 ms, every
other one times out. -/
def sampleOutcome : Webhook → HttpOutcome :=
  fun w => if w.id == "A" then .response 200 40 else .timeout

/-!
Theorems.
-/

/-- C1: a transport close whose reason is not logout, arriving when the
reconnect counter has reached the maximum of 5, schedules no further
reconnection attempt, and (the manual-restart flag being unset, as it is
whenever the instance sits in `reconnecting`) transitions the instance to
`logged_out` with a soft-clean: the persisted row is kept (with status
`inactive`), the credential directory is removed, and the instance leaves
the manager map. -/
theorem spec_C1_max_attempts_logged_out (s : InstState) (code : Option Nat)
    (hmax : maxReconnectAttempts ≤ s.reconnectAttempts)
    (hcode : code ≠ some DisconnectReason.loggedOut) :
    (handleClose s code).scheduledReconnect = false ∧
    (s.isManualRestart = false →
      (handleClose s code).state.connectionStatus = "logged_out" ∧
      (handleClose s code).state.dbRecordExists = s.dbRecordExists ∧
      (handleClose s code).state.dbStatus = "inactive" ∧
      (handleClose s code).state.authDirExists = false ∧
      (handleClose s code).state.inManagerMap = false ∧
      (handleClose s code).webhookStatus = "logged_out") := by
  have hlt : ¬ s.reconnectAttempts < maxReconnectAttempts := Nat.not_lt.mpr hmax
  constructor
  · unfold handleClose
    simp only [hlt, decide_False, Bool.and_false, Bool.false_and, if_false,
      Bool.false_eq_true]
    split <;> rfl
  · intro hman
    unfold handleClose
    simp [hlt, hman, deleteInstance]

/-- Witness for C1 at a concrete instance state with counter 5 and a
non-logout close. -/
theorem spec_C1_witness :
    (handleClose atMaxAttemptsState (some 428)).scheduledReconnect = false ∧
    (atMaxAttemptsState.isManualRestart = false →
      (handleClose atMaxAttemptsState (some 428)).state.connectionStatus = "logged_out" ∧
      (handleClose atMaxAttemptsState (some 428)).state.dbRecordExists =
        atMaxAttemptsState.dbRecordExists ∧
      (handleClose atMaxAttemptsState (some 428)).state.dbStatus = "inactive" ∧
      (handleClose atMaxAttemptsState (some 428)).state.authDirExists = false ∧
      (handleClose atMaxAttemptsState (some 428)).state.inManagerMap = false ∧
      (handleClose atMaxAttemptsState (some 428)).webhookStatus = "logged_out") :=
  spec_C1_max_attempts_logged_out atMaxAttemptsState (some 428) (by decide) (by decide)

/-- C2 counterexample: with a transport that emits a non-logout close
immediately after every successful open, five open/close cycles leave the
instance in `reconnecting` (counter 1, since every open resets the counter
to 0), not `logged_out`; the fifth cycle's close still schedules another
reconnection attempt. -/
theorem spec_C2_counterexample :
    (runConn freshInstState fiveOpenCloseCycles).connectionStatus = "reconnecting" ∧
    (runConn freshInstState fiveOpenCloseCycles).connectionStatus ≠ "logged_out" ∧
    (runConn freshInstState fiveOpenCloseCycles).reconnectAttempts = 1 ∧
    (runConn freshInstState fiveOpenCloseCycles).authDirExists = true ∧
    (handleClose (runConn freshInstState
        [.opened, .closed (some 428), .opened, .closed (some 428),
         .opened, .closed (some 428), .opened, .closed (some 428), .opened])
      (some 428)).scheduledReconnect = true := by
  decide

/-- C2 amended: a successful open resets the reconnect counter to 0, so a
transport that closes after every successful open reconnects forever.  The
bound applies to consecutive failures instead: after five consecutive
failed reconnection attempts with no intervening open (the close following
the fifth failed attempt), the instance becomes `logged_out`, the
credential directory is removed, and the persisted row remains with status
`inactive`; the `connection.update` webhook carries sub-status
`logged_out` and no further attempt is scheduled. -/
theorem spec_C2_amended_bounded_reconnect :
    afterFiveFailedReconnects.reconnectAttempts = 5 ∧
    (handleClose afterFiveFailedReconnects (some 428)).state.connectionStatus = "logged_out" ∧
    (handleClose afterFiveFailedReconnects (some 428)).state.authDirExists = false ∧
    (handleClose afterFiveFailedReconnects (some 428)).state.dbStatus = "inactive" ∧
    (handleClose afterFiveFailedReconnects (some 428)).state.dbRecordExists = true ∧
    (handleClose afterFiveFailedReconnects (some 428)).webhookStatus = "logged_out" ∧
    (handleClose afterFiveFailedReconnects (some 428)).scheduledReconnect = false := by
  decide

/-- C3: a close carrying the transient stream-reset code 515 ignores a
pending manual-restart request — with the counter below 5 the instance
still transitions to `reconnecting` and schedules a reconnect — and the
manual-restart flag is cleared by the first close after it is set,
whatever the close code. -/
theorem spec_C3_stream_reset_overrides_manual_restart (s : InstState)
    (code : Option Nat) (hlt : s.reconnectAttempts < maxReconnectAttempts) :
    (handleClose (restartMark s)
        (some DisconnectReason.restartRequired)).state.connectionStatus = "reconnecting" ∧
    (handleClose (restartMark s)
        (some DisconnectReason.restartRequired)).scheduledReconnect = true ∧
    (handleClose (restartMark s)
        (some DisconnectReason.restartRequired)).state.reconnectAttempts =
      s.reconnectAttempts + 1 ∧
    (handleClose (restartMark s) code).state.isManualRestart = false := by
  refine ⟨?_, ?_, ?_, ?_⟩
  · unfold handleClose restartMark
    simp [hlt, DisconnectReason.restartRequired, DisconnectReason.loggedOut]
  · unfold handleClose restartMark
    simp [hlt, DisconnectReason.restartRequired, DisconnectReason.loggedOut]
  · unfold handleClose restartMark
    simp [hlt, DisconnectReason.restartRequired, DisconnectReason.loggedOut]
  · unfold handleClose
    dsimp only
    split
    · rfl
    · split <;> rfl

/-- Every dispatcher run writes one history row per resolved subscription,
whatever each delivery's outcome. -/
theorem triggerWebhooks_length (iid ev : String) :
    ∀ (subs : List (Webhook × HttpOutcome)) (t : Nat),
      (triggerWebhooks iid ev t subs).length = subs.length
  | [], _ => rfl
  | (w, o) :: rest, t => by
      simp [triggerWebhooks, triggerWebhooks_length iid ev rest]

/-- Every attempt's history row completes no earlier than it was
triggered. -/
theorem deliverOne_triggered_le (iid wid ev : String) (t : Nat)
    (o : HttpOutcome) :
    (deliverOne iid wid ev t o).triggeredAt ≤ (deliverOne iid wid ev t o).completedAt := by
  cases o with
  | response s e =>
      by_cases h : is2xx s = true <;>
        simp [deliverOne, triggeredAtOf, h, Nat.le_add_right]
  | timeout => simp [deliverOne, triggeredAtOf, Nat.le_add_right]
  | networkError m e => simp [deliverOne, triggeredAtOf, Nat.le_add_right]

/-- The triggered-before-completed invariant holds for every row of a
dispatcher run. -/
theorem mem_triggerWebhooks_triggered_le (iid ev : String) :
    ∀ (subs : List (Webhook × HttpOutcome)) (t : Nat) (r : WebhookHistoryRow),
      r ∈ triggerWebhooks iid ev t subs → r.triggeredAt ≤ r.completedAt
  | [], _, _, h => by simp [triggerWebhooks] at h
  | (w, o) :: rest, t, r, h => by
      rcases List.mem_cons.mp h with h1 | h2
      · exact h1 ▸ deliverOne_triggered_le iid w.id ev t o
      · exact mem_triggerWebhooks_triggered_le iid ev rest (t + attemptElapsed o) r h2

/-- C4: dispatching an event over the N enabled subscriptions matching the
(instance, event) pair writes exactly N webhook-history rows, one per
subscription, regardless of each delivery's outcome, and every row has
`triggeredAt ≤ completedAt`. -/
theorem spec_C4_history_completeness (webhooks : List Webhook)
    (iid ev : String) (t : Nat) (outcome : Webhook → HttpOutcome) :
    (dispatchEvent webhooks iid ev t outcome).length =
      (getEnabledWebhooks webhooks iid ev).length ∧
    ∀ r ∈ dispatchEvent webhooks iid ev t outcome,
      r.triggeredAt ≤ r.completedAt := by
  constructor
  · unfold dispatchEvent
    rw [triggerWebhooks_length]
    exact List.length_map _ _
  · intro r hr
    exact mem_triggerWebhooks_triggered_le iid ev _ t r hr

/-- Witness for C4 on the sample subscriptions: two rows are written (the
disabled subscription is skipped) and the timed-out row respects the
triggered-before-completed invariant. -/
theorem spec_C4_witness :
    (dispatchEvent sampleWebhooks "inst1" "message.received" 0 sampleOutcome).length =
      (getEnabledWebhooks sampleWebhooks "inst1" "message.received").length ∧
    (deliverOne "inst1" "B" "message.received" 40 .timeout).triggeredAt ≤
      (deliverOne "inst1" "B" "message.received" 40 .timeout).completedAt :=
  ⟨(spec_C4_history_completeness sampleWebhooks "inst1" "message.received" 0
      sampleOutcome).1,
   (spec_C4_history_completeness sampleWebhooks "inst1" "message.received" 0
      sampleOutcome).2
     (deliverOne "inst1" "B" "message.received" 40 .timeout) (by decide)⟩

/-- C5: the recorded history row classifies the delivery outcome — a 2xx
response yields `success` carrying the HTTP status; a non-2xx response
yields `failed` carrying the HTTP status; a transport timeout yields
`timeout` with null HTTP status and the message naming the 5000 ms
timeout; any other network error yields `failed` with null HTTP status and
the cause as the error message. -/
theorem spec_C5_outcome_classification (iid wid ev : String) (t s e : Nat)
    (m : String) :
    (is2xx s = true →
      (deliverOne iid wid ev t (.response s e)).status = "success" ∧
      (deliverOne iid wid ev t (.response s e)).httpStatusCode = some s) ∧
    (is2xx s = false →
      (deliverOne iid wid ev t (.response s e)).status = "failed" ∧
      (deliverOne iid wid ev t (.response s e)).httpStatusCode = some s) ∧
    ((deliverOne iid wid ev t .timeout).status = "timeout" ∧
     (deliverOne iid wid ev t .timeout).httpStatusCode = none ∧
     (deliverOne iid wid ev t .timeout).errorMessage =
       some "timeout of 5000ms exceeded") ∧
    ((deliverOne iid wid ev t (.networkError m e)).status = "failed" ∧
     (deliverOne iid wid ev t (.networkError m e)).httpStatusCode = none ∧
     (deliverOne iid wid ev t (.networkError m e)).errorMessage = some m) := by
  refine ⟨fun h => ?_, fun h => ?_, ?_, ?_⟩ <;> simp [deliverOne, *]

/-- Witness for C5 at HTTP status 200 (2xx), 404 (non-2xx), a timeout and
a connection error. -/
theorem spec_C5_witness :
    ((deliverOne "inst1" "A" "message.received" 0 (.response 200 40)).status = "success" ∧
     (deliverOne "inst1" "A" "message.received" 0 (.response 200 40)).httpStatusCode =
       some 200) ∧
    ((deliverOne "inst1" "A" "message.received" 0 (.response 404 40)).status = "failed" ∧
     (deliverOne "inst1" "A" "message.received" 0 (.response 404 40)).httpStatusCode =
       some 404) ∧
    ((deliverOne "inst1" "A" "message.received" 0 .timeout).status = "timeout" ∧
     (deliverOne "inst1" "A" "message.received" 0 .timeout).httpStatusCode = none ∧
     (deliverOne "inst1" "A" "message.received" 0 .timeout).errorMessage =
       some "timeout of 5000ms exceeded") ∧
    ((deliverOne "inst1" "A" "message.received" 0
        (.networkError "socket hang up" 10)).status = "failed" ∧
     (deliverOne "inst1" "A" "message.received" 0
        (.networkError "socket hang up" 10)).httpStatusCode = none ∧
     (deliverOne "inst1" "A" "message.received" 0
        (.networkError "socket hang up" 10)).errorMessage = some "socket hang up") :=
  ⟨(spec_C5_outcome_classification "inst1" "A" "message.received" 0 200 40
      "socket hang up").1 (by decide),
   (spec_C5_outcome_classification "inst1" "A" "message.received" 0 404 40
      "socket hang up").2.1 (by decide),
   (spec_C5_outcome_classification "inst1" "A" "message.received" 0 404 40
      "socket hang up").2.2.1,
   (spec_C5_outcome_classification "inst1" "A" "message.received" 0 404 10
      "socket hang up").2.2.2⟩

/-- Witness for C3 at a fresh instance (counter 0) and logout close code
for the flag-clearing conjunct. -/
theorem spec_C3_witness :
    (handleClose (restartMark freshInstState)
        (some DisconnectReason.restartRequired)).state.connectionStatus = "reconnecting" ∧
    (handleClose (restartMark freshInstState)
        (some DisconnectReason.restartRequired)).scheduledReconnect = true ∧
    (handleClose (restartMark freshInstState)
        (some DisconnectReason.restartRequired)).state.reconnectAttempts =
      freshInstState.reconnectAttempts + 1 ∧
    (handleClose (restartMark freshInstState)
        (some DisconnectReason.loggedOut)).state.isManualRestart = false :=
  spec_C3_stream_reset_overrides_manual_restart freshInstState
    (some DisconnectReason.loggedOut) (by decide)

/-- C6 counterexample: with `628123456789` persisted (and in memory), a
create request for `+628123456789` — the same phone once normalised to
digits — does not fail with AlreadyExists: the duplicate check compares
the raw request string, misses, and creation then dies on the store's
unique constraint, surfaced as a generic 500 error. -/
theorem spec_C6_counterexample :
    (createInstanceCtrl msWith628 "+628123456789" "I2" none).2 =
      .serverError "Unique constraint failed on the fields: (phone)" ∧
    (createInstanceCtrl msWith628 "+628123456789" "I2" none).2 ≠ .alreadyExists ∧
    (findByPhone msWith628.store (normalizePhone "+628123456789")).isSome = true := by
  decide

/-- C6 amended: Create(phone, name, alias) fails with AlreadyExists
exactly when the raw phone string matches a persisted instance's phone; a
phone that matches an existing instance only after digit-normalisation
instead fails with the store's uniqueness error (a generic 500), because
the duplicate check runs on the raw string against the persisted store
only.  Otherwise the phone is normalised to digits, the record persisted
under the normalised phone, the instance inserted into the in-memory map
and started. -/
theorem spec_C6_create_semantics (ms : ManagerState) (phone name : String)
    (aliasName : Option String) (hp : phone ≠ "") (hn : name ≠ "") :
    ((findByPhone ms.store phone).isSome = true →
      createInstanceCtrl ms phone name aliasName = (ms, .alreadyExists)) ∧
    (findByPhone ms.store phone = none →
      (findByPhone ms.store (normalizePhone phone)).isSome = true →
      (createInstanceCtrl ms phone name aliasName).2 =
        .serverError "Unique constraint failed on the fields: (phone)") ∧
    (findByPhone ms.store phone = none →
      findByPhone ms.store (normalizePhone phone) = none →
      ∃ row, (createInstanceCtrl ms phone name aliasName).2 = .created row ∧
        row.phone = normalizePhone phone ∧ row.status = "inactive" ∧
        row ∈ (createInstanceCtrl ms phone name aliasName).1.store.rows ∧
        normalizePhone phone ∈ (createInstanceCtrl ms phone name aliasName).1.memPhones ∧
        normalizePhone phone ∈
          (createInstanceCtrl ms phone name aliasName).1.startedPhones) := by
  refine ⟨fun h => ?_, fun h1 h2 => ?_, fun h1 h2 => ?_⟩
  · simp [createInstanceCtrl, hp, hn, h]
  · simp [createInstanceCtrl, managerCreateInstance, instanceServiceCreate,
      hp, hn, h1, h2]
  · refine ⟨{ phone := normalizePhone phone, name := name,
              aliasName := aliasName, status := "inactive" }, ?_⟩
    simp [createInstanceCtrl, managerCreateInstance, instanceServiceCreate,
      hp, hn, h1, h2]

/-- Witness for C6: on the one-instance state the raw duplicate is
rejected with AlreadyExists, and on the empty state a formatted phone is
created under its digits-only form, in memory and started. -/
theorem spec_C6_witness :
    createInstanceCtrl msWith628 "628123456789" "I2" none =
      (msWith628, .alreadyExists) ∧
    ∃ row, (createInstanceCtrl emptyManagerState "+62 812-345" "N" none).2 =
        .created row ∧
      row.phone = normalizePhone "+62 812-345" ∧ row.status = "inactive" ∧
      row ∈ (createInstanceCtrl emptyManagerState "+62 812-345" "N" none).1.store.rows ∧
      normalizePhone "+62 812-345" ∈
        (createInstanceCtrl emptyManagerState "+62 812-345" "N" none).1.memPhones ∧
      normalizePhone "+62 812-345" ∈
        (createInstanceCtrl emptyManagerState "+62 812-345" "N" none).1.startedPhones :=
  ⟨(spec_C6_create_semantics msWith628 "628123456789" "I2" none
      (by decide) (by decide)).1 (by decide),
   (spec_C6_create_semantics emptyManagerState "+62 812-345" "N" none
      (by decide) (by decide)).2.2 (by decide) (by decide)⟩

/-- C7: the plugin handlers a per-instance chain invokes are exactly the
plugins whose override maps their name to `true`; an absent name counts as
disabled, so an instance with an empty override invokes no plugins at all,
whatever each plugin's own default-enabled flag says. -/
theorem spec_C7_override_selects_plugins (plugins : List Plugin)
    (cfg : List (String × Bool)) :
    executePlugins plugins cfg =
      (plugins.filter (fun p => lookupOverride cfg p.name == some true)).map
        Plugin.name ∧
    executePlugins plugins [] = [] := by
  constructor
  · unfold executePlugins
    congr 1
    apply List.filter_congr
    intro p _
    cases h : lookupOverride cfg p.name with
    | none => rfl
    | some b => cases b <;> simp [h]
  · simp [executePlugins, lookupOverride]

/-- C8: in the inbound pipeline (persist, plugin fan-out, webhook
fan-out), a failure in one stage is logged and aborts nothing else: the
enabled plugins all run whatever the storage outcome, the webhook fan-out
always runs, a storage failure is logged, and a throwing plugin handler is
logged while the other handlers, the webhook fan-out and the persistence
outcome are unaffected. -/
theorem spec_C8_contained_failures (plugins : List Plugin)
    (cfg : List (String × Bool)) (storeResult : StageResult)
    (handlerResult : String → StageResult) (webhookResult : StageResult)
    (n m m' : String) :
    (handleMessagesUpsertOne plugins cfg storeResult handlerResult
        webhookResult).invokedPlugins = executePlugins plugins cfg ∧
    (handleMessagesUpsertOne plugins cfg storeResult handlerResult
        webhookResult).webhooksDispatched = true ∧
    (storeResult = .ok →
      (handleMessagesUpsertOne plugins cfg storeResult handlerResult
        webhookResult).messageStored = true) ∧
    (storeResult = .err m →
      (handleMessagesUpsertOne plugins cfg storeResult handlerResult
        webhookResult).messageStored = false ∧
      ("Error storing message: " ++ m) ∈
        (handleMessagesUpsertOne plugins cfg storeResult handlerResult
          webhookResult).logs) ∧
    (n ∈ executePlugins plugins cfg → handlerResult n = .err m' →
      ("Plugin " ++ n ++ " error: " ++ m') ∈
        (handleMessagesUpsertOne plugins cfg storeResult handlerResult
          webhookResult).logs) := by
  refine ⟨rfl, ?_, fun h => ?_, fun h => ?_, fun hmem hr => ?_⟩
  · cases webhookResult <;> rfl
  · subst h; rfl
  · subst h
    simp [handleMessagesUpsertOne, storeMessageRun]
  · have hlog : ("Plugin " ++ n ++ " error: " ++ m') ∈
        pluginChainLogs (executePlugins plugins cfg) handlerResult :=
      List.mem_filterMap.mpr ⟨n, hmem, by simp [hr]⟩
    unfold handleMessagesUpsertOne
    dsimp only
    rw [List.mem_append, List.mem_append]
    exact Or.inl (Or.inr hlog)

/-- Witness for C8 on a two-plugin instance with a failing store and one
throwing handler. -/
theorem spec_C8_witness :
    (handleMessagesUpsertOne
        [{ name := "welcome-group", defaultEnabled := true },
         { name := "audit", defaultEnabled := false }]
        [("welcome-group", true), ("audit", true)] (.err "db down")
        (fun h => if h == "welcome-group" then .err "boom" else .ok)
        .ok).invokedPlugins =
      executePlugins
        [{ name := "welcome-group", defaultEnabled := true },
         { name := "audit", defaultEnabled := false }]
        [("welcome-group", true), ("audit", true)] ∧
    (handleMessagesUpsertOne
        [{ name := "welcome-group", defaultEnabled := true },
         { name := "audit", defaultEnabled := false }]
        [("welcome-group", true), ("audit", true)] (.err "db down")
        (fun h => if h == "welcome-group" then .err "boom" else .ok)
        .ok).webhooksDispatched = true ∧
    ("Error storing message: " ++ "db down") ∈
      (handleMessagesUpsertOne
        [{ name := "welcome-group", defaultEnabled := true },
         { name := "audit", defaultEnabled := false }]
        [("welcome-group", true), ("audit", true)] (.err "db down")
        (fun h => if h == "welcome-group" then .err "boom" else .ok)
        .ok).logs ∧
    ("Plugin " ++ "welcome-group" ++ " error: " ++ "boom") ∈
      (handleMessagesUpsertOne
        [{ name := "welcome-group", defaultEnabled := true },
         { name := "audit", defaultEnabled := false }]
        [("welcome-group", true), ("audit", true)] (.err "db down")
        (fun h => if h == "welcome-group" then .err "boom" else .ok)
        .ok).logs :=
  ⟨(spec_C8_contained_failures _ _ _ _ _ "welcome-group" "db down" "boom").1,
   (spec_C8_contained_failures _ _ _ _ _ "welcome-group" "db down" "boom").2.1,
   ((spec_C8_contained_failures _ _ _ _ _ "welcome-group" "db down" "boom").2.2.2.1
      rfl).2,
   (spec_C8_contained_failures [{ name := "welcome-group", defaultEnabled := true },
        { name := "audit", defaultEnabled := false }]
      [("welcome-group", true), ("audit", true)] (.err "db down")
      (fun h => if h == "welcome-group" then .err "boom" else .ok)
      .ok "welcome-group" "db down" "boom").2.2.2.2 (by decide) (by decide)⟩

/-- C9 counterexample: a byte-array is not substituted with
`(__type: bytes, data: base64)` — the code tags it `Uint8Array` and keeps
the bytes as a plain number array, not a base64 string. -/
theorem spec_C9_counterexample :
    fieldStr (safeSerialize (.uint8array [1, 2, 3]) none) "__type" =
      some "Uint8Array" ∧
    fieldStr (safeSerialize (.uint8array [1, 2, 3]) none) "__type" ≠
      some "bytes" ∧
    ((safeSerialize (.uint8array [1, 2, 3]) none).lookupField "data").map
      JsVal.isStringVal = some false := by
  refine ⟨rfl, ?_, rfl⟩
  intro h
  simp [safeSerialize, sanitize, fieldStr, JsVal.lookupField] at h

/-- C9 amended: safe serialisation substitutes every plain byte-array with
`(__type: Uint8Array, data: <number array>)`, every function with
`(__type: Function, name)` (name `anonymous` when empty), and every other
non-plain complex object with `(__type: ComplexObject, toString)`; the
substitution reaches into plain objects and arrays.  A Node `Buffer` never
takes the replacer's `Buffer.isBuffer` branch — `Buffer.prototype.toJSON`
runs before the replacer (and `Buffer` is a `Uint8Array` subclass anyway),
so it comes out as the untagged plain object
`(type: Buffer, data: <number array>)`, never carrying a `__type` field.
When serialisation fails the result is a fallback object carrying
`__serialization_error: true` instead of a thrown error, so ingestion is
never blocked. -/
theorem spec_C9_safe_serialize_shapes (bs : List Nat) (fname t k msg : String)
    (v : JsVal) :
    sanitize (.uint8array bs) =
      .obj [("__type", .str "Uint8Array"), ("data", .arr (bs.map JsVal.num))] ∧
    sanitize (.fn fname) =
      .obj [("__type", .str "Function"),
            ("name", .str (if fname = "" then "anonymous" else fname))] ∧
    sanitize (.buffer bs) =
      .obj [("type", .str "Buffer"), ("data", .arr (bs.map JsVal.num))] ∧
    (sanitize (.buffer bs)).lookupField "__type" = none ∧
    sanitize (.foreign t) =
      .obj [("__type", .str "ComplexObject"), ("toString", .str t)] ∧
    (sanitize (.obj [(k, v)])).lookupField k = some (sanitize v) ∧
    sanitize (.arr [v]) = .arr [sanitize v] ∧
    (safeSerialize v (some msg)).lookupField "__serialization_error" =
      some (.bool true) := by
  refine ⟨?_, rfl, ?_, ?_, rfl, ?_, ?_, rfl⟩
  · simp [sanitize, sanitizeBytes]
  · simp [sanitize, sanitizeBytes]
  · simp [sanitize, JsVal.lookupField]
  · simp [sanitize, sanitizeFields, JsVal.lookupField]
  · simp [sanitize, sanitizeElems]

/-- All characters surviving the digit filter are digits. -/
theorem digitsOnly_all_isDigit (p : List Char) :
    (digitsOnly p).all Char.isDigit = true := by
  rw [List.all_eq_true]
  intro x hx
  exact (List.mem_filter.mp hx).2

/-- C10: every outbound personal recipient is reduced to digits and
coerced to a 62-prefixed number before the JID is formed — a leading 0 is
replaced by 62, any digit string not starting with 62 gets 62 prepended —
so the destination JID always has the shape
`<62-prefixed digits>@s.whatsapp.net`. -/
theorem spec_C10_jid_62_prefixed (p : List Char) :
    (∃ t, personalJid p = ('6' :: '2' :: t) ++ "@s.whatsapp.net".toList ∧
      (('6' :: '2' :: t).all Char.isDigit) = true) ∧
    (∀ rest, digitsOnly p = '0' :: rest →
      formatPhoneNumber62 p = '6' :: '2' :: rest) ∧
    (List.isPrefixOf ['6', '2'] (digitsOnly p) = false →
      List.isPrefixOf ['0'] (digitsOnly p) = false →
      formatPhoneNumber62 p = '6' :: '2' :: digitsOnly p) := by
  have hall := digitsOnly_all_isDigit p
  refine ⟨?_, fun rest hrest => ?_, fun h62 h0 => ?_⟩
  · by_cases h62 : List.isPrefixOf ['6', '2'] (digitsOnly p) = true
    · obtain ⟨t, ht⟩ := List.isPrefixOf_iff_prefix.mp h62
      refine ⟨t, ?_, ?_⟩
      · simp [personalJid, formatPhoneNumber62, h62, ← ht]
      · rw [show ('6' :: '2' :: t) = ['6', '2'] ++ t from rfl, ht]
        exact hall
    · by_cases h0 : List.isPrefixOf ['0'] (digitsOnly p) = true
      · obtain ⟨t, ht⟩ := List.isPrefixOf_iff_prefix.mp h0
        refine ⟨t, ?_, ?_⟩
        · simp [personalJid, formatPhoneNumber62, h62, h0, ← ht]
        · have hsub : t.all Char.isDigit = true := by
            rw [List.all_eq_true] at hall ⊢
            intro x hx
            exact hall x (by rw [← ht]; exact List.mem_cons_of_mem _ hx)
          simp [hsub]
      · refine ⟨digitsOnly p, ?_, ?_⟩
        · have h62' : ¬ (['6', '2'] <+: digitsOnly p) :=
            fun hq => h62 (List.isPrefixOf_iff_prefix.mpr hq)
          have h0' : ¬ (['0'] <+: digitsOnly p) :=
            fun hq => h0 (List.isPrefixOf_iff_prefix.mpr hq)
          simp [personalJid, formatPhoneNumber62, h62', h0']
        · simp [hall]
  · have h62 : List.isPrefixOf ['6', '2'] (digitsOnly p) = false := by
      rw [hrest]
      simp [List.isPrefixOf]
    have h0 : List.isPrefixOf ['0'] (digitsOnly p) = true := by
      rw [hrest]
      simp [List.isPrefixOf]
    simp [formatPhoneNumber62, h62, h0, hrest]
  · simp [formatPhoneNumber62, h62, h0]

/-- Witness for C10 on the hyphenated local number `0812-345`. -/
theorem spec_C10_witness :
    (∃ t, personalJid "0812-345".toList =
        ('6' :: '2' :: t) ++ "@s.whatsapp.net".toList ∧
      (('6' :: '2' :: t).all Char.isDigit) = true) ∧
    formatPhoneNumber62 "0812-345".toList = '6' :: '2' :: "812345".toList :=
  ⟨(spec_C10_jid_62_prefixed "0812-345".toList).1,
   (spec_C10_jid_62_prefixed "0812-345".toList).2.1 "812345".toList (by decide)⟩

end WhatsAppGateway
